import Mathlib

/-!
Verification development for the movie/TV poster bot.

This file gives a shallow embedding of the core pure logic of the
repository and proves or refutes the specification claims about it:

* `src/utils/helpers.py` — `parse_query`, `validate_template`
* `src/services/poster_generator.py` — `_format_caption`, `_wrap_text`,
  the landscape crop geometry of `_generate_landscape_poster`
* `src/services/tmdb_api.py` — the record construction of
  `get_movie_details` / `get_tv_details`
* `src/handlers/movies.py` — the structured-then-scraped resolution flow
  of `handle_movie_request`
* `src/confit/database.py` — `cache_movie_data` / `get_cached_movie_data`

Python strings are modelled as `List Char` (ASCII inputs); regular
expressions used by the source are embedded as explicit character
scanners with the same leftmost-match / replace-all semantics.
-/

namespace Tmdb

/-- ASCII model of Python's regex `\s` character class (`str.strip` too). -/
def isSpaceC (c : Char) : Bool :=
  c == ' ' || c == '\t' || c == '\n' || c == '\r' ||
  c == Char.ofNat 11 || c == Char.ofNat 12

/-- ASCII model of Python's regex `\w` character class. -/
def isWordC (c : Char) : Bool :=
  c.isAlpha || c.isDigit || c == '_'

/-- Value of a digit string, as Python's `int` on a digit-only string. -/
def digitsVal (ds : List Char) : Nat :=
  ds.foldl (fun a c => a * 10 + (c.toNat - 48)) 0

/-- Strip characters satisfying `p` from both ends (Python `str.strip(chars)`). -/
def pyStripP (p : Char → Bool) (cs : List Char) : List Char :=
  ((cs.dropWhile p).reverse.dropWhile p).reverse

/-- Python `str.strip()` (whitespace). -/
def pyStrip (cs : List Char) : List Char := pyStripP isSpaceC cs

/-- Python `str.strip('- ')`. -/
def stripDashSpace (cs : List Char) : List Char :=
  pyStripP (fun c => c == '-' || c == ' ') cs

/-- Leftmost-match search: try the matcher at every position, as `re.search`.
The matcher receives the suffix starting at the current position. -/
def searchA {α : Type} (m : List Char → Option α) : List Char → Option α
  | [] => m []
  | c :: rest =>
    match m (c :: rest) with
    | some a => some a
    | none => searchA m rest

/-- Fuel-indexed worker for `subAllA` (structural recursion on the fuel,
so that the kernel can evaluate it; the fuel is always sufficient because
every step shortens the list). -/
def subAllF (m : List Char → Option Nat) : Nat → List Char → List Char
  | 0, _ => []
  | _ + 1, [] => []
  | fuel + 1, c :: rest =>
    match m (c :: rest) with
    | some n => subAllF m fuel ((c :: rest).drop (max n 1))
    | none => c :: subAllF m fuel rest

/-- Replace-all-with-empty, as `re.sub(pat, '', s)`: on a match, drop the
matched characters and resume after them; otherwise keep one character and
continue.  The matcher returns the number of characters matched; all
matchers used here consume at least one character (`max n 1` only guards
totality). -/
def subAllA (m : List Char → Option Nat) (cs : List Char) : List Char :=
  subAllF m cs.length cs

/-- Matcher for the compact marker regex `[Ss](\d+)[Ee](\d+)`:
returns (consumed characters, season, episode). -/
def matchSE : List Char → Option (Nat × Nat × Nat)
  | c :: rest =>
    if c == 'S' || c == 's' then
      let d1 := rest.takeWhile Char.isDigit
      if d1.isEmpty then none else
      match rest.drop d1.length with
      | e :: rest2 =>
        if e == 'E' || e == 'e' then
          let d2 := rest2.takeWhile Char.isDigit
          if d2.isEmpty then none
          else some (1 + d1.length + 1 + d2.length, digitsVal d1, digitsVal d2)
        else none
      | [] => none
    else none
  | [] => none

/-- `re.search` of the compact season/episode pattern: captured integers. -/
def seSearch (cs : List Char) : Option (Nat × Nat) :=
  searchA (fun t => (matchSE t).map (fun r => (r.2.1, r.2.2))) cs

/-- `re.sub(compact-pattern, '', ·)`. -/
def seSubAll (cs : List Char) : List Char :=
  subAllA (fun t => (matchSE t).map (fun r => r.1)) cs

/-- Case-insensitive literal match (`lit` given lowercase); returns the rest. -/
def matchLit : List Char → List Char → Option (List Char)
  | [], cs => some cs
  | _ :: _, [] => none
  | l :: ls, c :: cs => if c.toLower == l then matchLit ls cs else none

/-- Matcher for the verbose regex `[Ss]eason\s+(\d+)\s+[Ee]pisode\s+(\d+)`
with `re.IGNORECASE`: returns (consumed characters, season, episode). -/
def matchVerbose (cs : List Char) : Option (Nat × Nat × Nat) :=
  match matchLit "season".data cs with
  | none => none
  | some r1 =>
    let ws1 := r1.takeWhile isSpaceC
    if ws1.isEmpty then none else
    let r2 := r1.drop ws1.length
    let d1 := r2.takeWhile Char.isDigit
    if d1.isEmpty then none else
    let r3 := r2.drop d1.length
    let ws2 := r3.takeWhile isSpaceC
    if ws2.isEmpty then none else
    let r4 := r3.drop ws2.length
    match matchLit "episode".data r4 with
    | none => none
    | some r5 =>
      let ws3 := r5.takeWhile isSpaceC
      if ws3.isEmpty then none else
      let r6 := r5.drop ws3.length
      let d2 := r6.takeWhile Char.isDigit
      if d2.isEmpty then none
      else some (cs.length - (r6.length - d2.length), digitsVal d1, digitsVal d2)

/-- `re.search` of the verbose pattern: captured integers. -/
def verboseSearch (cs : List Char) : Option (Nat × Nat) :=
  searchA (fun t => (matchVerbose t).map (fun r => (r.2.1, r.2.2))) cs

/-- `re.sub(verbose-pattern, '', ·)`. -/
def verboseSubAll (cs : List Char) : List Char :=
  subAllA (fun t => (matchVerbose t).map (fun r => r.1)) cs

/-- Match of `\b(19|20)\d{2}\b` at the current position; `prev` is the
character before the position (for the left word boundary). -/
def yearAt (prev : Option Char) : List Char → Option Nat
  | d1 :: d2 :: d3 :: d4 :: rest =>
    let bLeft := match prev with
      | none => true
      | some p => !(isWordC p)
    let bRight := match rest with
      | [] => true
      | r :: _ => !(isWordC r)
    if bLeft && ((d1 == '1' && d2 == '9') || (d1 == '2' && d2 == '0')) &&
        d3.isDigit && d4.isDigit && bRight
    then some (digitsVal [d1, d2, d3, d4]) else none
  | _ => none

/-- `re.search` of the year pattern, tracking the previous character for
the word boundary. -/
def yearSearchAux (prev : Option Char) : List Char → Option Nat
  | [] => none
  | c :: rest =>
    match yearAt prev (c :: rest) with
    | some y => some y
    | none => yearSearchAux (some c) rest

/-- Leftmost 4-digit year token `\b(19|20)\d{2}\b`, as an integer. -/
def yearSearch (cs : List Char) : Option Nat := yearSearchAux none cs

/-- `re.sub(year-pattern, '', ·)`; boundaries are judged on the original
string, so the previous character is tracked across removals. -/
def yearSubAllAux (prev : Option Char) : List Char → List Char
  | d1 :: d2 :: d3 :: d4 :: rest =>
    if (yearAt prev (d1 :: d2 :: d3 :: d4 :: rest)).isSome then
      yearSubAllAux (some d4) rest
    else d1 :: yearSubAllAux (some d1) (d2 :: d3 :: d4 :: rest)
  | c :: rest => c :: yearSubAllAux (some c) rest
  | [] => []

/-- Remove all year tokens. -/
def yearSubAll (cs : List Char) : List Char := yearSubAllAux none cs

/-- `re.sub(r'\s+', ' ', ·)`: collapse whitespace runs to single spaces. -/
def collapseWs : List Char → List Char
  | [] => []
  | c :: rest =>
    if isSpaceC c then
      match rest with
      | [] => [' ']
      | c2 :: rest2 =>
        if isSpaceC c2 then collapseWs (c2 :: rest2)
        else ' ' :: collapseWs (c2 :: rest2)
    else c :: collapseWs rest

/-- Embedding of `parse_query` (src/utils/helpers.py): returns
(title, year, season, episode). -/
def parse_query (query : String) : Option String × Option Nat × Option Nat × Option Nat :=
  let cs := query.data
  if (pyStrip cs).isEmpty then (none, none, none, none)
  else
    let q := pyStrip cs
    let (title0, season, episode) :=
      match seSearch q with
      | some (s, e) => (pyStrip (seSubAll q), some s, some e)
      | none =>
        match verboseSearch q with
        | some (s, e) => (pyStrip (verboseSubAll q), some s, some e)
        | none => ([], none, none)
    -- `if not title: title = query` (covers both the unmatched case and a
    -- season/episode removal that left the text empty)
    let title1 := if title0.isEmpty then q else title0
    let (title2, year) :=
      match yearSearch title1 with
      | some y => (pyStrip (yearSubAll title1), some y)
      | none => (title1, none)
    -- `if title:` cleanup: collapse whitespace, strip, strip('- ')
    let title3 := if title2.isEmpty then title2
      else stripDashSpace (pyStrip (collapseWs title2))
    (some (String.mk title3), year, season, episode)

/-- Modelled from the spec: the parse pipeline exactly as §4.1/§8 state
it — season/episode removal, then year removal, then whitespace/hyphen
cleanup — with no provision for a removal that empties the text. -/
def specParsePipeline (query : String) : List Char :=
  let q := pyStrip query.data
  let afterSE :=
    match seSearch q with
    | some _ => pyStrip (seSubAll q)
    | none =>
      match verboseSearch q with
      | some _ => pyStrip (verboseSubAll q)
      | none => q
  let afterY :=
    match yearSearch afterSE with
    | some _ => pyStrip (yearSubAll afterSE)
    | none => afterSE
  if afterY.isEmpty then afterY
  else stripDashSpace (pyStrip (collapseWs afterY))

/-- The parse pipeline as the code actually runs it: like
`specParsePipeline`, but a season/episode removal that leaves the text
empty restores the full (stripped) query as the working title. -/
def parsePipelineRestored (query : String) : List Char :=
  let q := pyStrip query.data
  let afterSE :=
    match seSearch q with
    | some _ =>
      let t := pyStrip (seSubAll q)
      if t.isEmpty then q else t
    | none =>
      match verboseSearch q with
      | some _ =>
        let t := pyStrip (verboseSubAll q)
        if t.isEmpty then q else t
      | none => q
  let afterY :=
    match yearSearch afterSE with
    | some _ => pyStrip (yearSubAll afterSE)
    | none => afterSE
  if afterY.isEmpty then afterY
  else stripDashSpace (pyStrip (collapseWs afterY))

/-- The working title after the season/episode stage of `parse_query`
(the text over which the year search then runs). -/
def seWorkingTitle (query : String) : List Char :=
  let q := pyStrip query.data
  match seSearch q with
  | some _ =>
    let t := pyStrip (seSubAll q)
    if t.isEmpty then q else t
  | none =>
    match verboseSearch q with
    | some _ =>
      let t := pyStrip (verboseSubAll q)
      if t.isEmpty then q else t
    | none => q

/-! ### Caption formatter (PosterGenerator._format_caption) -/

/-- A Python value as it occurs in the media dicts.  Floats are carried
as their decimal text (`flt r` stands for a float whose `str()` is `r`);
`pynone` is Python's `None`; `other` stands for any value that is not a
`str`/`int`/`float`. -/
inductive PyVal where
  | str (s : String)
  | int (n : Int)
  | flt (r : String)
  | pynone
  | other
deriving DecidableEq

/-- A Python dict from field names to values, in insertion order. -/
abbrev Media := List (String × PyVal)

/-- First-binding lookup in an association list (Python dict access). -/
def getS {α : Type} : List (String × α) → String → Option α
  | [], _ => none
  | (k, v) :: rest, f => if k = f then some v else getS rest f

/-- Replace the binding of `f` in place, or append it (dict assignment). -/
def setS {α : Type} : List (String × α) → String → α → List (String × α)
  | [], f, v => [(f, v)]
  | (k, w) :: rest, f, v =>
    if k = f then (k, v) :: rest else (k, w) :: setS rest f v

/-- `str(value)` for the coercible values, `"N/A"` otherwise:
`isinstance(value, (str, int, float))` in `_format_caption`. -/
def coerceVal : PyVal → String
  | .str s => s
  | .int n => toString n
  | .flt r => r
  | .pynone => "N/A"
  | .other => "N/A"

/-- The `safe_data` map: every field coerced to a string. -/
def coerceData (data : Media) : List (String × String) :=
  data.map (fun kv => (kv.1, coerceVal kv.2))

/-- Decimal-literal parse of Python `float(s)`: sign, integer digits,
optional fractional digits.  (Exotic float syntax — exponents, `inf`,
whitespace — is outside the modelled fragment and parses as failure.) -/
def parseFloatLit (s : String) : Option (Bool × List Char × List Char) :=
  let step1 : Bool × List Char :=
    match s.data with
    | '-' :: t => (true, t)
    | '+' :: t => (false, t)
    | t => (false, t)
  let neg := step1.1
  let cs := step1.2
  let ip := cs.takeWhile Char.isDigit
  let r := cs.drop ip.length
  match r with
  | [] => if ip.isEmpty then none else some (neg, ip, [])
  | '.' :: r2 =>
    let fp := r2.takeWhile Char.isDigit
    if (r2.drop fp.length).isEmpty && !(ip.isEmpty && fp.isEmpty)
    then some (neg, ip, fp) else none
  | _ => none

/-- Ten times the magnitude, rounded half-to-even at one decimal place
(exact-decimal model of the binary-float rounding of `"%.1f"`). -/
def roundHalfEven1 (ip fp : List Char) : Nat :=
  let d1 := match fp with
    | [] => 0
    | c :: _ => c.toNat - 48
  let restDigits := match fp with
    | [] => ([] : List Char)
    | _ :: t => t
  let base := digitsVal ip * 10 + d1
  let cmpHalf : Ordering :=
    match restDigits with
    | [] => Ordering.lt
    | c :: t =>
      if c.toNat > 53 then Ordering.gt
      else if c.toNat < 53 then Ordering.lt
      else if t.all (fun d => d == '0') then Ordering.eq else Ordering.gt
  match cmpHalf with
  | .lt => base
  | .gt => base + 1
  | .eq => if base % 2 == 0 then base else base + 1

/-- Model of `f"{float(s):.1f}"`: `none` when `float(s)` raises. -/
def pyFloatFormat1 (s : String) : Option String :=
  match parseFloatLit s with
  | none => none
  | some (neg, ip, fp) =>
    let n := roundHalfEven1 ip fp
    some ((if neg then "-" else "") ++ toString (n / 10) ++ "." ++ toString (n % 10))

/-- The rating re-formatting step of `_format_caption`: if `rating` is
present and not `"N/A"`, try to parse it as a float and re-render it with
one decimal place; on parse failure leave it unchanged. -/
def ratingStep (safe : List (String × String)) : List (String × String) :=
  match getS safe "rating" with
  | some v =>
    if v = "N/A" then safe
    else
      match pyFloatFormat1 v with
      | some v2 => setS safe "rating" v2
      | none => safe
  | none => safe

/-- A token of a parsed format string. -/
inductive FmtTok where
  | lit (c : Char)
  | field (name : String)
deriving DecidableEq

/-- The left and right brace characters. -/
def lbrace : Char := Char.ofNat 123

/-- See `lbrace`. -/
def rbrace : Char := Char.ofNat 125

/-- Fuel-indexed parse of `str.format` templates over the fragment the
repo uses: doubled braces are literals, a replacement field is a plain
`\x7bname\x7d`.  `none` models the exception path (single stray brace,
empty or malformed field name, conversion/format-spec syntax — all of
which the caller's broad `except` turns into the fallback).  Structural
recursion on the fuel so the kernel can evaluate it; every step consumes
at least one character, so `length + 1` fuel always suffices. -/
def parseFmtF : Nat → List Char → Option (List FmtTok)
  | 0, _ => none
  | _ + 1, [] => some []
  | fuel + 1, c :: rest =>
    if c = lbrace then
      match rest with
      | [] => none
      | c2 :: rest2 =>
        if c2 = lbrace then (parseFmtF fuel rest2).map (.lit lbrace :: ·)
        else
          let nm := rest.takeWhile
            (fun x => x ≠ rbrace && x ≠ lbrace && x ≠ ':' && x ≠ '!')
          match rest.drop nm.length with
          | r :: rest3 =>
            if r = rbrace then
              if nm.isEmpty then none
              else (parseFmtF fuel rest3).map (.field (String.mk nm) :: ·)
            else none
          | [] => none
    else if c = rbrace then
      match rest with
      | [] => none
      | c2 :: rest2 =>
        if c2 = rbrace then (parseFmtF fuel rest2).map (.lit rbrace :: ·)
        else none
    else (parseFmtF fuel rest).map (.lit c :: ·)

/-- Parse a whole template. -/
def parseFmt (template : String) : Option (List FmtTok) :=
  parseFmtF (template.data.length + 1) template.data

/-- Substitute tokens against the coerced map; `none` models `KeyError`. -/
def renderToks (m : List (String × String)) : List FmtTok → Option String
  | [] => some ""
  | .lit c :: rest => (renderToks m rest).map (fun s => String.mk (c :: s.data))
  | .field nm :: rest =>
    match getS m nm with
    | none => none
    | some v => (renderToks m rest).map (fun s => v ++ s)

/-- Embedding of `PosterGenerator._format_caption`: coerce the data,
re-format the rating, substitute; any failure returns the template. -/
def format_caption (template : String) (data : Media) : String :=
  let safe := ratingStep (coerceData data)
  match parseFmt template with
  | none => template
  | some toks =>
    match renderToks safe toks with
    | none => template
    | some out => out

/-- The field names a template references (empty on a malformed template). -/
def referencedFields (template : String) : List String :=
  match parseFmt template with
  | some toks => toks.filterMap (fun t =>
      match t with
      | .field n => some n
      | .lit _ => none)
  | none => []

/-! ### Template validator (validate_template) -/

/-- The fixed whitelist of caption variables. -/
def validVariables : List String :=
  ["title", "original_title", "year", "language", "genres", "genre",
   "rating", "plot", "runtime", "director", "cast", "season", "episode",
   "seasons", "episodes", "imdb_id", "tmdb_id", "type"]

/-- Fuel-indexed worker for `extractVars` (structural recursion on the
fuel; every step consumes at least one character). -/
def extractVarsF : Nat → List Char → List String
  | 0, _ => []
  | _ + 1, [] => []
  | fuel + 1, c :: rest =>
    if c = lbrace then
      let nm := rest.takeWhile (fun x => x ≠ rbrace)
      match rest.drop nm.length with
      | _ :: rest2 =>
        -- the dropped head can only be the right brace
        if nm.isEmpty then extractVarsF fuel rest
        else String.mk nm :: extractVarsF fuel rest2
      | [] => []
    else extractVarsF fuel rest

/-- `re.findall(r'\x7b([^\x7d]+)\x7d', template)`: leftmost,
non-overlapping; a token is the non-empty run between a left brace and
the next right brace. -/
def extractVars (cs : List Char) : List String :=
  extractVarsF cs.length cs

/-- Embedding of `validate_template`: (is-valid, message). -/
def validate_template (template : String) : Bool × String :=
  if template.isEmpty then (false, "Template cannot be empty")
  else if template.length > 1000 then
    (false, "Template is too long (max 1000 characters)")
  else
    let vars := extractVars template.data
    let invalid := vars.filter (fun v => !(validVariables.contains v))
    if !invalid.isEmpty then
      (false, "Invalid variables: " ++ String.intercalate ", " invalid)
    else (true, "Valid template")

/-! ### Text wrapping (PosterGenerator._wrap_text) -/

/-- Python `str.split()`: words separated by whitespace runs. -/
def pySplitGo (cur : List Char) : List Char → List (List Char)
  | [] => if cur.isEmpty then [] else [cur.reverse]
  | c :: rest =>
    if isSpaceC c then
      if cur.isEmpty then pySplitGo [] rest
      else cur.reverse :: pySplitGo [] rest
    else pySplitGo (c :: cur) rest

/-- The words of a string. -/
def pySplit (s : String) : List String :=
  (pySplitGo [] s.data).map String.mk

/-- `' '.join(words)`. -/
def joinWords (g : List String) : String := String.intercalate " " g

/-- The greedy line-filling loop of `_wrap_text`, at the level of word
groups; `f` measures the width of a candidate group's joined text. -/
def wrapAux (f : List String → Nat) (maxW : Nat) (cur : List String) :
    List String → List (List String)
  | [] => if cur.isEmpty then [] else [cur]
  | w :: ws =>
    let test := cur ++ [w]
    if f test ≤ maxW then wrapAux f maxW test ws
    else if cur.isEmpty then [w] :: wrapAux f maxW [] ws
    else cur :: wrapAux f maxW [w] ws

/-- Embedding of `PosterGenerator._wrap_text`; `widthFn` models the font
metric `font.getbbox(text)[2] - font.getbbox(text)[0]`. -/
def wrap_text (widthFn : String → Nat) (text : String) (maxW : Nat) : List String :=
  (wrapAux (fun g => widthFn (joinWords g)) maxW [] (pySplit text)).map joinWords

/-! ### TMDB record construction (TMDBService.get_movie_details / get_tv_details)

The network layer `_make_request` returns the decoded JSON on HTTP 200
and `None` on any non-success status or transport error; a fetch result
is therefore modelled as an `Option` of the decoded response.  Response
structures carry exactly the keys the mapping code reads; an `Option`
field is `none` when the upstream response did not populate that key. -/

/-- The fields of a TMDB `movie/{id}` response that the mapping reads. -/
structure MovieResp where
  title : Option String
  original_title : Option String
  release_date : Option String
  original_language : Option String
  genres : List String
  vote_average : Option PyVal
  overview : Option String
  runtime : Option Int
  poster_path : Option String
  backdrop_path : Option String
deriving DecidableEq

/-- A `movie/{id}/credits` response: crew as (name, job), cast names. -/
structure CreditsResp where
  crew : List (String × String)
  cast : List String
deriving DecidableEq

/-- The fields of a TMDB `tv/{id}` response that the mapping reads. -/
structure TvResp where
  name : Option String
  original_name : Option String
  first_air_date : Option String
  original_language : Option String
  genres : List String
  vote_average : Option PyVal
  overview : Option String
  poster_path : Option String
  backdrop_path : Option String
  number_of_seasons : Option PyVal
  number_of_episodes : Option PyVal
  created_by : List String
deriving DecidableEq

/-- A `tv/{id}/season/{s}/episode/{e}` response. -/
structure EpisodeResp where
  name : Option String
  overview : Option String
deriving DecidableEq

/-- Python `str.upper()` (ASCII model, kernel-evaluable). -/
def pyUpper (s : String) : String := String.mk (s.data.map Char.toUpper)

/-- Python string truthiness for an optional string field. -/
def truthyStr : Option String → Bool
  | some s => !s.isEmpty
  | none => false

/-- `"url" if path else None` for the two image fields. -/
def imgUrl (imageBase : String) : Option String → PyVal
  | some p => if p.isEmpty then PyVal.pynone else .str (imageBase ++ p)
  | none => PyVal.pynone

/-- The `formatted_data` dict built by `get_movie_details` from a movie
response and an optional credits response. -/
def formatMovieData (imageBase : String) (movieId : Int) (md : MovieResp)
    (credits : Option CreditsResp) : Media :=
  let base : Media := [
    ("type", .str "movie"),
    ("title", .str (md.title.getD "N/A")),
    ("original_title", .str (md.original_title.getD "N/A")),
    ("year", .str (if truthyStr md.release_date
      then String.mk ((md.release_date.getD "").data.take 4) else "N/A")),
    ("language", .str (pyUpper (md.original_language.getD "N/A"))),
    ("genres", .str (String.intercalate ", " md.genres)),
    ("rating", md.vote_average.getD (.str "N/A")),
    ("plot", .str (md.overview.getD "N/A")),
    ("runtime", .str (match md.runtime with
      | some n => if n == 0 then "N/A" else toString n ++ " min"
      | none => "N/A")),
    ("poster_url", imgUrl imageBase md.poster_path),
    ("backdrop_url", imgUrl imageBase md.backdrop_path),
    ("tmdb_id", .int movieId)]
  match credits with
  | some cr =>
    let directors := (cr.crew.filter (fun p => p.2 == "Director")).map Prod.fst
    let top5 := cr.cast.take 5
    base ++
      [("director", .str (if directors.isEmpty then "N/A"
          else String.intercalate ", " directors)),
       ("cast", .str (if top5.isEmpty then "N/A"
          else String.intercalate ", " top5))]
  | none => base ++ [("director", .str "N/A"), ("cast", .str "N/A")]

/-- Python `if season and episode:` truthiness on optional ints. -/
def optTruthy : Option Nat → Bool
  | some n => n != 0
  | none => false

/-- The `formatted_data` dict built by `get_tv_details` from a TV
response, the requested season/episode, and an optional episode-detail
response (only fetched when both season and episode are truthy). -/
def formatTvData (imageBase : String) (tvId : Int) (tv : TvResp)
    (season episode : Option Nat) (ep : Option EpisodeResp) : Media :=
  let plotStr := tv.overview.getD "N/A"
  let base : Media := [
    ("type", .str "tv"),
    ("title", .str (tv.name.getD "N/A")),
    ("original_title", .str (tv.original_name.getD "N/A")),
    ("year", .str (if truthyStr tv.first_air_date
      then String.mk ((tv.first_air_date.getD "").data.take 4) else "N/A")),
    ("language", .str (pyUpper (tv.original_language.getD "N/A"))),
    ("genres", .str (String.intercalate ", " tv.genres)),
    ("rating", tv.vote_average.getD (.str "N/A")),
    ("plot", .str plotStr),
    ("poster_url", imgUrl imageBase tv.poster_path),
    ("backdrop_url", imgUrl imageBase tv.backdrop_path),
    ("tmdb_id", .int tvId),
    ("seasons", tv.number_of_seasons.getD (.str "N/A")),
    ("episodes", tv.number_of_episodes.getD (.str "N/A"))]
  let withDir := base ++
    [("director", .str (if tv.created_by.isEmpty then "N/A"
        else String.intercalate ", " tv.created_by))]
  if optTruthy season && optTruthy episode then
    match ep with
    | some e =>
      let d1 := setS withDir "episode_title" (.str (e.name.getD "N/A"))
      let d2 := setS d1 "episode_plot" (.str (e.overview.getD plotStr))
      let d3 := setS d2 "season" (.int (season.getD 0))
      setS d3 "episode" (.int (episode.getD 0))
    | none => withDir
  else withDir

/-- Embedding of `get_movie_details` as a function of its cache probe and
its two fetch results (the detail fetch and the credits fetch are issued
together with `asyncio.gather` and both awaited before this logic runs;
the cache write is a side effect outside this model). -/
def get_movie_details (imageBase : String) (movieId : Int)
    (cached : Option Media) (movieFetch : Option MovieResp)
    (creditsFetch : Option CreditsResp) : Option Media :=
  match cached with
  | some c => some c
  | none =>
    match movieFetch with
    | none => none
    | some md => some (formatMovieData imageBase movieId md creditsFetch)

/-- Embedding of `get_tv_details` as a function of its cache probe and
fetch results. -/
def get_tv_details (imageBase : String) (tvId : Int)
    (cached : Option Media) (tvFetch : Option TvResp)
    (season episode : Option Nat) (epFetch : Option EpisodeResp) : Option Media :=
  match cached with
  | some c => some c
  | none =>
    match tvFetch with
    | none => none
    | some tv => some (formatTvData imageBase tvId tv season episode epFetch)

/-! ### Resolution flow (handlers/movies.handle_movie_request) -/

/-- Outcome of one client call as the orchestrator sees it: a returned
value, a `None` result, or a raised exception. -/
inductive Fetch (α : Type) where
  | ok (a : α)
  | absent
  | raised
deriving DecidableEq

/-- Whether a call failed to produce a value. -/
def Fetch.failed {α : Type} : Fetch α → Bool
  | .ok _ => false
  | .absent => true
  | .raised => true

/-- The TMDB try-block of `handle_movie_request`: `movie_data` after the
block, `none` when the block ended with no (or a pre-assignment)
exception or with `None`.  A raise inside the block is caught outside
it, so an exception after `movie_data` was assigned keeps the
assignment. -/
def tryStructured (season episode : Option Nat)
    (searchMovie searchTv getTvDet : Fetch Media) : Option Media :=
  if optTruthy season || optTruthy episode then
    match searchTv with
    | .ok m =>
      if !m.isEmpty && optTruthy season && optTruthy episode then
        match getTvDet with
        | .ok d => if d.isEmpty then some m else some d
        | .absent => some m
        | .raised => some m
      else some m
    | .absent => none
    | .raised => none
  else
    match searchMovie with
    | .ok m =>
      if m.isEmpty then
        match searchTv with
        | .ok m2 => some m2
        | .absent => none
        | .raised => none
      else some m
    | .absent =>
      match searchTv with
      | .ok m2 => some m2
      | .absent => none
      | .raised => none
    | .raised => none

/-- Terminal outcome of the resolution flow for one request. -/
inductive ResolveOutcome where
  | resolved (source : String) (m : Media)
  | notFound
deriving DecidableEq

/-- The IMDb fallback block: a truthy scraped result resolves, anything
else (a `None`, an empty dict, or a caught exception) leaves `movie_data`
falsy and the flow reports not-found. -/
def tryScraped : Fetch Media → ResolveOutcome
  | .ok m => if m.isEmpty then .notFound else .resolved "IMDb" m
  | .absent => .notFound
  | .raised => .notFound

/-- The source-resolution core of `handle_movie_request`: TMDB first
(search_movie / search_tv / get_tv_details per the season-episode shape
of the intent), then the IMDb scraper, then not-found. -/
def resolveMedia (season episode : Option Nat)
    (searchMovie searchTv getTvDet scraped : Fetch Media) : ResolveOutcome :=
  match tryStructured season episode searchMovie searchTv getTvDet with
  | some m => if m.isEmpty then tryScraped scraped else .resolved "TMDB" m
  | none => tryScraped scraped

/-! ### Metadata cache (confit/database.cache_movie_data / get_cached_movie_data)

The MongoDB collection is modelled as a list of documents; a document is
an association list of field names to BSON-ish values.  `update_one`
with a `{"key": k}` filter and a `$set` update modifies the first
matching document field-wise (upserting a fresh one built from the
filter equality plus the update); `find_one` returns the first match.
Timestamps are integers (an explicit clock replaces `time.time()`). -/

/-- A stored value: a number, a string, or an embedded document. -/
inductive BVal where
  | num (n : Int)
  | str (s : String)
  | doc (fields : List (String × BVal))

/-- A document. -/
abbrev CacheDoc := List (String × BVal)

/-- `$set` of a whole field map onto a document, field by field. -/
def setFields {α : Type} (d fs : List (String × α)) : List (String × α) :=
  fs.foldl (fun acc kv => setS acc kv.1 kv.2) d

/-- Does the document match the filter `{"key": k}`? -/
def matchesKey (d : CacheDoc) (k : String) : Bool :=
  match getS d "key" with
  | some (.str s) => s = k
  | _ => false

/-- `find_one({"key": k})`. -/
def findOne (st : List CacheDoc) (k : String) : Option CacheDoc :=
  st.find? (fun d => matchesKey d k)

/-- `update_one({"key": k}, {"$set": fields}, upsert=True)`. -/
def updateOneUpsert (st : List CacheDoc) (k : String) (fields : CacheDoc) :
    List CacheDoc :=
  match st with
  | [] => [setFields [("key", .str k)] fields]
  | d :: rest =>
    if matchesKey d k then setFields d fields :: rest
    else d :: updateOneUpsert rest k fields

/-- Embedding of `cache_movie_data`: stamp `cached_at` and `ttl` into the
blob (a Python dict mutation, overwriting same-named fields of the blob)
and upsert it under the key. -/
def cache_movie_data (st : List CacheDoc) (key : String) (data : CacheDoc)
    (ttl : Int) (now : Int) : List CacheDoc :=
  let data2 := setS (setS data "cached_at" (.num now)) "ttl" (.num ttl)
  updateOneUpsert st key data2

/-- `.get(f, default)` for the numeric bookkeeping fields (the values
written by `cache_movie_data` are always numeric). -/
def getNumD (d : CacheDoc) (f : String) (default : Int) : Int :=
  match getS d f with
  | some (.num n) => n
  | _ => default

/-- Embedding of `get_cached_movie_data`: the found document while fresh
(`now - cached_at < ttl`), otherwise absent; a pure read — the stale
entry is not deleted. -/
def get_cached_movie_data (st : List CacheDoc) (key : String) (now : Int) :
    Option CacheDoc :=
  match findOne st key with
  | some d =>
    if now - getNumD d "cached_at" 0 < getNumD d "ttl" 3600 then some d
    else none
  | none => none

/-! ### Landscape crop geometry (PosterGenerator._generate_landscape_poster)

`PIL.Image.crop` takes a `(left, top, right, bottom)` box.  The float
expressions `int(w / (16/9))` and `int(h * (16/9))` are modelled by the
exact integer divisions `9*w/16` and `16*h/9`. -/

/-- The crop box `_generate_landscape_poster` applies to a `w × h`
artwork before compositing (the identity box when no crop happens). -/
def landscapeCropBox (w h : Nat) : Nat × Nat × Nat × Nat :=
  if h > w then
    if 9 * w < 16 * h then
      let nh := 9 * w / 16
      let top := (h - nh) / 2
      (0, top, w, top + nh)
    else
      let nw := 16 * h / 9
      let left := (w - nw) / 2
      (left, 0, left + nw, h)
  else (0, 0, w, h)

/-- The dimensions of the landscape canvas (the overlay and the final
composite have the dimensions of the cropped artwork). -/
def landscapeDims (w h : Nat) : Nat × Nat :=
  let b := landscapeCropBox w h
  (b.2.2.1 - b.1, b.2.2.2 - b.2.1)

/-- `w : h` is 16:9 up to the rounding of an integer-height crop:
`9*w` and `16*h` differ by less than one height unit (16). -/
def approx169 (w h : Nat) : Prop :=
  16 * h ≤ 9 * w + 15 ∧ 9 * w ≤ 16 * h + 15

/-! ## Helper lemmas -/

theorem getS_setS_self {α : Type} (s : List (String × α)) (f : String) (v : α) :
    getS (setS s f v) f = some v := by
  induction s with
  | nil => simp [setS, getS]
  | cons kv rest ih =>
    obtain ⟨k, w⟩ := kv
    by_cases h : k = f
    · simp [setS, getS, h]
    · simp [setS, getS, h, ih]

theorem getS_setS_of_ne {α : Type} (s : List (String × α)) (f g : String) (v : α)
    (h : g ≠ f) : getS (setS s f v) g = getS s g := by
  have hfg : ¬ (f = g) := fun hh => h hh.symm
  induction s with
  | nil => simp [setS, getS, hfg]
  | cons kv rest ih =>
    obtain ⟨k, w⟩ := kv
    by_cases hk : k = f
    · subst hk
      simp [setS, getS, hfg]
    · by_cases hg : k = g
      · subst hg
        simp [setS, getS, hk]
      · simp [setS, getS, hk, hg, ih]

theorem getS_map_none {α β : Type} (fn : α → β) (d : List (String × α)) (nm : String)
    (h : getS d nm = none) :
    getS (d.map (fun kv => (kv.1, fn kv.2))) nm = none := by
  induction d with
  | nil => simp [getS]
  | cons kv rest ih =>
    by_cases hk : kv.1 = nm
    · simp [getS, hk] at h
    · simp only [getS, hk, if_neg hk, List.map_cons] at *
      exact ih h

/-! ## C8: landscape crop geometry -/

/-- C8 (corrected): in landscape mode cropping to 16:9 happens only when
the source is portrait (`h > w`); then the height is cropped to
`9*w/16` about the vertical center, the width is untouched (no
stretching), the crop stays inside the image, and the result is 16:9 up
to integer rounding. -/
theorem landscape_crop_portrait_only (w h : Nat) (hp : h > w) (hw : 0 < w) :
    landscapeDims w h = (w, 9 * w / 16) ∧
    9 * w / 16 ≤ h ∧
    approx169 w (9 * w / 16) ∧
    landscapeCropBox w h =
      (0, (h - 9 * w / 16) / 2, w, (h - 9 * w / 16) / 2 + 9 * w / 16) ∧
    (h - 9 * w / 16) / 2 + 9 * w / 16 ≤ h := by
  have hlt : 9 * w < 16 * h := by omega
  have hdm : 16 * (9 * w / 16) + 9 * w % 16 = 9 * w := Nat.div_add_mod (9 * w) 16
  have hmod : 9 * w % 16 < 16 := Nat.mod_lt _ (by norm_num)
  have hbox : landscapeCropBox w h =
      (0, (h - 9 * w / 16) / 2, w, (h - 9 * w / 16) / 2 + 9 * w / 16) := by
    simp [landscapeCropBox, hp, hlt]
  have hle : 9 * w / 16 ≤ h := by omega
  refine ⟨?_, hle, ⟨by omega, by omega⟩, hbox, by omega⟩
  simp [landscapeDims, hbox]

/-- Witness for C8's theorem: the spec's 1000×1500 portrait source is
cropped to 1000×562, which is 16:9 within rounding tolerance. -/
theorem landscape_crop_portrait_only_witness :
    landscapeDims 1000 1500 = (1000, 562) ∧ approx169 1000 562 := by
  have h := landscape_crop_portrait_only 1000 1500 (by norm_num) (by norm_num)
  refine ⟨?_, ?_⟩
  · rw [h.1]
  · have := h.2.2.1
    norm_num at this ⊢
    exact this

/-- C8 counterexample: an 800×600 source is landscape but not 16:9, and
`_generate_landscape_poster` leaves it uncropped — refuting "cropped to
16:9 whenever the source image is not already 16:9". -/
theorem landscape_no_crop_for_landscape_source :
    landscapeDims 800 600 = (800, 600) ∧ ¬ approx169 800 600 := by
  constructor
  · rfl
  · intro hc
    exact absurd hc.1 (by norm_num)

/-! ## C9: template validator -/

/-- C9 (confirmed): `validate_template` accepts exactly the non-empty
templates of at most 1000 characters all of whose brace tokens are in
the fixed whitelist; in particular a template with an unknown variable
is rejected. -/
theorem validate_template_iff (template : String) :
    ((validate_template template).1 = true ↔
      (template ≠ "" ∧ template.length ≤ 1000 ∧
        ∀ v ∈ extractVars template.data, v ∈ validVariables)) ∧
    (validate_template "{nonsense}").1 = false := by
  constructor
  · unfold validate_template
    by_cases he : template.isEmpty = true
    · have hemp : template = "" := (String.isEmpty_iff template).mp he
      simp only [he, if_true]
      constructor
      · intro hv
        exact absurd hv (by simp)
      · intro ⟨hne, _, _⟩
        exact absurd hemp hne
    · have hne : template ≠ "" := by
        intro hh
        exact he ((String.isEmpty_iff template).mpr hh)
      by_cases hl : template.length > 1000
      · simp only [he, if_false, hl, if_true]
        constructor
        · intro hv
          exact absurd hv (by simp)
        · intro ⟨_, hlen, _⟩
          omega
      · simp only [he, if_false, hl]
        by_cases hf : ((extractVars template.data).filter
            (fun v => !(validVariables.contains v))).isEmpty = true
        · have hnil : (extractVars template.data).filter
              (fun v => !(validVariables.contains v)) = [] :=
            List.isEmpty_iff.mp hf
          simp only [hf, Bool.not_true, if_false]
          constructor
          · intro _
            refine ⟨hne, by omega, ?_⟩
            intro v hvmem
            by_contra hvn
            have hmemf : v ∈ (extractVars template.data).filter
                (fun v => !(validVariables.contains v)) := by
              rw [List.mem_filter]
              refine ⟨hvmem, ?_⟩
              simp [hvn]
            rw [hnil] at hmemf
            simp at hmemf
          · intro _
            rfl
        · simp only [hf]
          constructor
          · intro hv
            exact absurd hv (by simp)
          · intro ⟨_, _, hall⟩
            have hnil : (extractVars template.data).filter
                (fun v => !(validVariables.contains v)) = [] := by
              rw [List.filter_eq_nil_iff]
              intro a ha
              simp [hall a ha]
            rw [hnil] at hf
            simp at hf
  · decide

/-- Witness for C9's theorem at concrete templates. -/
theorem validate_template_iff_witness :
    (validate_template "{title} - {year}").1 = true := by
  exact ((validate_template_iff "{title} - {year}").1).mpr
    ⟨by decide, by decide, by decide⟩

/-! ## C6: resolution falls back to not-found, never an exception -/

/-- C6 (confirmed): when every structured-client call raises or returns
absent and the scraped client's combined search+details also returns
absent or raises, `handle_movie_request`'s resolution core reports
not-found; the exceptions are caught, not propagated. -/
theorem resolve_not_found_when_all_fail (season episode : Option Nat)
    (searchMovie searchTv getTvDet scraped : Fetch Media)
    (hm : searchMovie.failed = true) (ht : searchTv.failed = true)
    (hs : scraped.failed = true) :
    resolveMedia season episode searchMovie searchTv getTvDet scraped =
      .notFound := by
  have hstruct : tryStructured season episode searchMovie searchTv getTvDet
      = none := by
    unfold tryStructured
    by_cases hse : optTruthy season || optTruthy episode
    · simp only [hse, if_true]
      cases searchTv with
      | ok m => simp [Fetch.failed] at ht
      | absent => rfl
      | raised => rfl
    · simp only [hse, if_false]
      cases searchMovie with
      | ok m => simp [Fetch.failed] at hm
      | absent =>
        cases searchTv with
        | ok m2 => simp [Fetch.failed] at ht
        | absent => rfl
        | raised => rfl
      | raised => rfl
  have hscr : tryScraped scraped = .notFound := by
    cases scraped with
    | ok m => simp [Fetch.failed] at hs
    | absent => rfl
    | raised => rfl
  unfold resolveMedia
  rw [hstruct, hscr]

/-- Witness for C6's theorem: both sources fail on a concrete request. -/
theorem resolve_not_found_when_all_fail_witness :
    resolveMedia (some 1) (some 2) Fetch.raised Fetch.raised Fetch.absent
      Fetch.absent = .notFound :=
  resolve_not_found_when_all_fail (some 1) (some 2) Fetch.raised Fetch.raised
    Fetch.absent Fetch.absent rfl rfl rfl

/-! ## C3: get_movie_details failure policy -/

/-- C3 (corrected): with no cache hit, `get_movie_details` returns
absent exactly when the detail fetch failed; a credits-fetch failure
alone does not make the call absent — the record is still returned,
with director and cast degraded to "N/A". -/
theorem movie_details_failure_policy (imageBase : String) (movieId : Int)
    (md : MovieResp) (credits : Option CreditsResp) :
    get_movie_details imageBase movieId none none credits = none ∧
    get_movie_details imageBase movieId none (some md) credits =
      some (formatMovieData imageBase movieId md credits) ∧
    getS (formatMovieData imageBase movieId md none) "director" =
      some (.str "N/A") ∧
    getS (formatMovieData imageBase movieId md none) "cast" =
      some (.str "N/A") := by
  refine ⟨rfl, rfl, rfl, rfl⟩

/-- C3 counterexample: the detail fetch succeeds (on a response with no
optional fields) while the credits fetch fails, yet the call returns a
record rather than absent — refuting "if either of the two fetches
fails, the whole get_movie_details call returns absent". -/
theorem movie_details_credits_failure_not_absent :
    get_movie_details "base" 7
      none
      (some ⟨none, none, none, none, [], none, none, none, none, none⟩)
      none ≠ none := by
  decide

/-! ## C2: "N/A" placeholder invariant of the normalized records -/

/-- C2 (corrected): the movie/TV mappings default the fields they cover
to the string "N/A" when the upstream response did not populate them —
but `poster_url`/`backdrop_url` are set to Python `None` when the path
is missing, `genres` becomes the empty string when the genre list is
empty, and schema fields outside a mapping's scope (season/episode data
for movies; `cast` for TV; `season`/`episode` unless both were
requested) are absent from the record. -/
theorem normalized_record_defaults (imageBase : String) (movieId tvId : Int)
    (md : MovieResp) (credits : Option CreditsResp) (tv : TvResp) :
    (md.title = none →
      getS (formatMovieData imageBase movieId md credits) "title" =
        some (.str "N/A")) ∧
    (md.overview = none →
      getS (formatMovieData imageBase movieId md credits) "plot" =
        some (.str "N/A")) ∧
    (md.vote_average = none →
      getS (formatMovieData imageBase movieId md credits) "rating" =
        some (.str "N/A")) ∧
    (md.release_date = none →
      getS (formatMovieData imageBase movieId md credits) "year" =
        some (.str "N/A")) ∧
    (md.runtime = none →
      getS (formatMovieData imageBase movieId md credits) "runtime" =
        some (.str "N/A")) ∧
    (md.poster_path = none →
      getS (formatMovieData imageBase movieId md credits) "poster_url" =
        some PyVal.pynone) ∧
    (md.genres = [] →
      getS (formatMovieData imageBase movieId md credits) "genres" =
        some (.str "")) ∧
    (credits = none →
      getS (formatMovieData imageBase movieId md credits) "director" =
        some (.str "N/A")) ∧
    getS (formatMovieData imageBase movieId md credits) "season" = none ∧
    getS (formatMovieData imageBase movieId md credits) "episode_title" = none ∧
    (tv.name = none →
      getS (formatTvData imageBase tvId tv none none none) "title" =
        some (.str "N/A")) ∧
    (tv.poster_path = none →
      getS (formatTvData imageBase tvId tv none none none) "poster_url" =
        some PyVal.pynone) ∧
    getS (formatTvData imageBase tvId tv none none none) "cast" = none ∧
    getS (formatTvData imageBase tvId tv none none none) "runtime" = none ∧
    getS (formatTvData imageBase tvId tv none none none) "season" = none := by
  refine ⟨?_, ?_, ?_, ?_, ?_, ?_, ?_, ?_, ?_, ?_, ?_, ?_, ?_, ?_, ?_⟩
  all_goals try intro h
  all_goals try cases credits
  all_goals simp_all [formatMovieData, formatTvData, getS, imgUrl, truthyStr,
    optTruthy, setS, String.intercalate]

/-- Witness for C2's amended theorem at a concrete empty response. -/
theorem normalized_record_defaults_witness :
    getS (formatMovieData "base" 1
      ⟨none, none, none, none, [], none, none, none, none, none⟩ none)
      "title" = some (.str "N/A") ∧
    getS (formatTvData "base" 2
      ⟨none, none, none, none, [], none, none, none, none, none, none, []⟩
      none none none) "cast" = none := by
  have h := normalized_record_defaults "base" 1 2
    ⟨none, none, none, none, [], none, none, none, none, none⟩ none
    ⟨none, none, none, none, [], none, none, none, none, none, none, []⟩
  exact ⟨h.1 rfl, h.2.2.2.2.2.2.2.2.2.2.2.2.1⟩

/-- C2 counterexample: a movie record built from a response with no
poster path carries a literal null `poster_url` and no `season` key at
all — refuting "no field is ever null or absent from the record". -/
theorem normalized_record_nulls_example :
    getS (formatMovieData "base" 1
      ⟨none, none, none, none, [], none, none, none, none, none⟩ none)
      "poster_url" = some PyVal.pynone ∧
    getS (formatMovieData "base" 1
      ⟨none, none, none, none, [], none, none, none, none, none⟩ none)
      "season" = none := by
  decide

/-! ## C1: the caption formatter never raises on a missing field -/

theorem renderToks_missing (m : List (String × String)) (nm : String)
    (hmiss : getS m nm = none) :
    ∀ toks : List FmtTok, FmtTok.field nm ∈ toks → renderToks m toks = none := by
  intro toks
  induction toks with
  | nil => intro hmem; simp at hmem
  | cons t rest ih =>
    intro hmem
    cases t with
    | lit c =>
      have : FmtTok.field nm ∈ rest := by
        rcases List.mem_cons.mp hmem with heq | hr
        · exact absurd heq (by simp)
        · exact hr
      simp [renderToks, ih this]
    | field n =>
      by_cases hn : n = nm
      · subst hn
        simp [renderToks, hmiss]
      · have : FmtTok.field nm ∈ rest := by
          rcases List.mem_cons.mp hmem with heq | hr
          · injection heq with h2
            exact absurd h2.symm hn
          · exact hr
        cases hg : getS m n with
        | none => simp [renderToks, hg]
        | some v => simp [renderToks, hg, ih this]

theorem ratingStep_preserves_missing (s : List (String × String)) (nm : String)
    (h : getS s nm = none) : getS (ratingStep s) nm = none := by
  unfold ratingStep
  cases hr : getS s "rating" with
  | none => exact h
  | some v =>
    have hne : nm ≠ "rating" := by
      intro hh
      rw [hh] at h
      rw [h] at hr
      exact absurd hr (by simp)
    by_cases hna : v = "N/A"
    · simp [hna, h]
    · cases hf : pyFloatFormat1 v with
      | none => simp [hna, hf, h]
      | some v2 => simp [hna, hf, getS_setS_of_ne s "rating" nm v2 hne, h]

/-- C1 (confirmed): `_format_caption` never raises — when the template
references a field name absent from the coerced field map, it returns
the original template verbatim (the `KeyError` is caught and the
template returned). -/
theorem caption_missing_field_returns_template (template : String)
    (data : Media) (name : String)
    (href : name ∈ referencedFields template)
    (habs : getS (coerceData data) name = none) :
    format_caption template data = template := by
  unfold format_caption
  unfold referencedFields at href
  cases hp : parseFmt template with
  | none => rfl
  | some toks =>
    rw [hp] at href
    have hmem : FmtTok.field name ∈ toks := by
      rcases List.mem_filterMap.mp href with ⟨t, htmem, hteq⟩
      cases t with
      | lit c => simp at hteq
      | field n =>
        have : n = name := by
          by_contra hne
          simp [hne] at hteq
        rw [← this]
        exact htmem
    have hmiss2 : getS (ratingStep (coerceData data)) name = none :=
      ratingStep_preserves_missing _ _ habs
    simp [renderToks_missing _ _ hmiss2 toks hmem]

/-- Witness for C1's theorem: the unknown field `nonsense` leaves the
template untouched. -/
theorem caption_missing_field_returns_template_witness :
    format_caption "{nonsense}" [("title", PyVal.str "X")] = "{nonsense}" :=
  caption_missing_field_returns_template "{nonsense}" [("title", PyVal.str "X")]
    "nonsense" (by decide) (by decide)

/-! ## C10: text wrapping -/

theorem wrapAux_flatten (f : List String → Nat) (maxW : Nat) :
    ∀ (ws : List String) (cur : List String),
      (wrapAux f maxW cur ws).flatten = cur ++ ws := by
  intro ws
  induction ws with
  | nil =>
    intro cur
    by_cases hc : cur.isEmpty
    · rw [List.isEmpty_iff.mp hc]
      simp [wrapAux]
    · simp [wrapAux, hc]
  | cons w rest ih =>
    intro cur
    unfold wrapAux
    by_cases hf : f (cur ++ [w]) ≤ maxW
    · simp only [hf, if_true]
      rw [ih (cur ++ [w])]
      simp
    · rw [if_neg hf]
      by_cases hc : cur.isEmpty
      · rw [List.isEmpty_iff.mp hc]
        simp only [List.isEmpty_nil, if_true]
        rw [List.flatten_cons, ih []]
        simp
      · rw [if_neg (by simp [hc] : ¬ cur.isEmpty = true)]
        rw [List.flatten_cons, ih [w]]
        simp

theorem wrapAux_wide (f : List String → Nat) (maxW : Nat) :
    ∀ (ws : List String) (cur : List String) (g : List String),
      g ∈ wrapAux f maxW cur ws →
      2 ≤ g.length → (2 ≤ cur.length → f cur ≤ maxW) → f g ≤ maxW := by
  intro ws
  induction ws with
  | nil =>
    intro cur g hg hlen hcur
    by_cases hc : cur.isEmpty
    · rw [List.isEmpty_iff.mp hc] at hg
      simp [wrapAux] at hg
    · simp only [wrapAux, hc, if_false] at hg
      rcases List.mem_singleton.mp hg with rfl
      exact hcur hlen
  | cons w rest ih =>
    intro cur g hg hlen hcur
    unfold wrapAux at hg
    by_cases hf : f (cur ++ [w]) ≤ maxW
    · simp only [hf, if_true] at hg
      exact ih (cur ++ [w]) g hg hlen (fun _ => hf)
    · simp only [hf, if_false] at hg
      by_cases hc : cur.isEmpty
      · rw [List.isEmpty_iff.mp hc] at hg hcur
        simp only [List.isEmpty_nil, if_true] at hg
        rcases List.mem_cons.mp hg with rfl | hgr
        · simp at hlen
        · exact ih [] g hgr hlen (by simp)
      · simp only [hc, if_false] at hg
        rcases List.mem_cons.mp hg with rfl | hgr
        · exact hcur hlen
        · exact ih [w] g hgr hlen (by simp)

theorem wrapAux_overwide_alone (f : List String → Nat) (maxW : Nat)
    (hmono : ∀ (w : String) (g : List String), w ∈ g → f [w] ≤ f g) :
    ∀ (ws : List String) (cur : List String) (w : String),
      w ∈ ws → maxW < f [w] → [w] ∈ wrapAux f maxW cur ws := by
  have hsingle : ∀ (w : String) (rest : List String), maxW < f [w] →
      [w] ∈ wrapAux f maxW [w] rest := by
    intro w rest hwide
    cases rest with
    | nil => simp [wrapAux]
    | cons w2 rest2 =>
      unfold wrapAux
      have : ¬ f ([w] ++ [w2]) ≤ maxW := by
        have := hmono w ([w] ++ [w2]) (by simp)
        omega
      simp only [this, if_false]
      simp [wrapAux]
  intro ws
  induction ws with
  | nil => intro cur w hmem; simp at hmem
  | cons w0 rest ih =>
    intro cur w hmem hwide
    unfold wrapAux
    rcases List.mem_cons.mp hmem with rfl | hmemr
    · have hnof : ¬ f (cur ++ [w]) ≤ maxW := by
        have := hmono w (cur ++ [w]) (by simp)
        omega
      simp only [hnof, if_false]
      by_cases hc : cur.isEmpty
      · simp only [hc, if_true]
        exact List.mem_cons_self _ _
      · simp only [hc, if_false]
        exact List.mem_cons_of_mem _ (hsingle w rest hwide)
    · by_cases hf : f (cur ++ [w0]) ≤ maxW
      · simp only [hf, if_true]
        exact ih (cur ++ [w0]) w hmemr hwide
      · simp only [hf, if_false]
        by_cases hc : cur.isEmpty
        · simp only [hc, if_true]
          exact List.mem_cons_of_mem _ (ih [] w hmemr hwide)
        · simp only [hc, if_false]
          exact List.mem_cons_of_mem _ (ih [w0] w hmemr hwide)

theorem joinWords_single (w : String) : joinWords [w] = w := by
  simp [joinWords, String.intercalate, String.intercalate.go]

/-- C10 (confirmed): `_wrap_text` splits the text into lines whose words,
in order, are exactly the input's words (no word is ever split); every
line holding two or more words measures at most `maxW`; and — when the
font metric is monotone under extending a line — a single word wider
than `maxW` is emitted as a line of its own. -/
theorem wrap_text_spec (widthFn : String → Nat) (text : String) (maxW : Nat) :
    wrap_text widthFn text maxW =
      (wrapAux (fun g => widthFn (joinWords g)) maxW [] (pySplit text)).map
        joinWords ∧
    (wrapAux (fun g => widthFn (joinWords g)) maxW [] (pySplit text)).flatten =
      pySplit text ∧
    (∀ g ∈ wrapAux (fun g => widthFn (joinWords g)) maxW [] (pySplit text),
      2 ≤ g.length → widthFn (joinWords g) ≤ maxW) ∧
    ((∀ (w : String) (g : List String), w ∈ g → widthFn w ≤ widthFn (joinWords g)) →
      ∀ w ∈ pySplit text, maxW < widthFn w →
        [w] ∈ wrapAux (fun g => widthFn (joinWords g)) maxW [] (pySplit text)) := by
  refine ⟨rfl, ?_, ?_, ?_⟩
  · rw [wrapAux_flatten]
    simp
  · intro g hg hlen
    exact wrapAux_wide _ maxW (pySplit text) [] g hg hlen (by simp)
  · intro hmono w hmem hwide
    have hmono2 : ∀ (w : String) (g : List String), w ∈ g →
        (fun g => widthFn (joinWords g)) [w] ≤ (fun g => widthFn (joinWords g)) g := by
      intro w2 g2 hm2
      simp only [joinWords_single]
      exact hmono w2 g2 hm2
    have hwide2 : maxW < (fun g => widthFn (joinWords g)) [w] := by
      simp only [joinWords_single]
      exact hwide
    exact wrapAux_overwide_alone _ maxW hmono2 (pySplit text) [] w hmem hwide2

/-- Witness for C10's theorem: with a width metric that makes every line
fit, the whole input becomes one line (hypotheses discharged at
`widthFn = 0`, for which the monotonicity premise holds trivially). -/
theorem wrap_text_spec_witness :
    wrap_text (fun _ => 0) "hello world" 5 = ["hello world"] ∧
    (wrapAux (fun g => (fun _ => 0) (joinWords g)) 5 []
      (pySplit "hello world")).flatten = pySplit "hello world" := by
  have h := wrap_text_spec (fun _ => 0) "hello world" 5
  have hm := h.2.2.2 (fun w g _ => Nat.le_refl 0)
  refine ⟨?_, h.2.1⟩
  rw [h.1]
  decide

/-! ## C4 / C5: parse_query structure -/

theorem parse_query_blank (q : String) (h : (pyStrip q.data).isEmpty = true) :
    parse_query q = (none, none, none, none) := by
  unfold parse_query
  simp only [h, if_true]

theorem seSearch_nil : seSearch [] = none := rfl

set_option maxHeartbeats 1600000 in
/-- Decomposition of `parse_query` on a non-blank query into its staged
pipeline: the cleaned title, the year searched over the marker-stage
working title, and the season/episode captures of the first matching
pattern. -/
theorem parse_query_eq (q : String) (hne : (pyStrip q.data).isEmpty = false) :
    parse_query q =
      (some (String.mk (parsePipelineRestored q)),
       yearSearch (seWorkingTitle q),
       (match seSearch (pyStrip q.data) with
        | some (s, _) => some s
        | none =>
          match verboseSearch (pyStrip q.data) with
          | some (s, _) => some s
          | none => none),
       (match seSearch (pyStrip q.data) with
        | some (_, e) => some e
        | none =>
          match verboseSearch (pyStrip q.data) with
          | some (_, e) => some e
          | none => none)) := by
  unfold parse_query parsePipelineRestored seWorkingTitle
  simp only [hne, Bool.false_eq_true, if_false]
  cases hse : seSearch (pyStrip q.data) with
  | some p =>
    obtain ⟨s0, e0⟩ := p
    simp only [hse]
    by_cases ht : (pyStrip (seSubAll (pyStrip q.data))).isEmpty
    · simp only [ht, if_true]
      cases hy : yearSearch (pyStrip q.data) <;> simp only [hy]
    · simp only [ht, Bool.false_eq_true, if_false]
      cases hy : yearSearch (pyStrip (seSubAll (pyStrip q.data))) <;>
        simp only [hy]
  | none =>
    simp only [hse]
    cases hv : verboseSearch (pyStrip q.data) with
    | some p =>
      obtain ⟨s0, e0⟩ := p
      simp only [hv]
      by_cases ht : (pyStrip (verboseSubAll (pyStrip q.data))).isEmpty
      · simp only [ht, if_true]
        cases hy : yearSearch (pyStrip q.data) <;> simp only [hy]
      · simp only [ht, Bool.false_eq_true, if_false]
        cases hy : yearSearch (pyStrip (verboseSubAll (pyStrip q.data))) <;>
          simp only [hy]
    | none =>
      simp only [hv, List.isEmpty_nil, if_true]
      cases hy : yearSearch (pyStrip q.data) <;> simp only [hy]

/-- C4 (corrected): on an input whose (stripped) text contains a compact
`S<digits>E<digits>` marker, `parse_query` captures the first match's
two integers (which are nonnegative, not necessarily positive) as
season/episode, and the year is searched afterwards over the
marker-stage working title — the marker-stripped text, except that a
removal which empties the text restores the full stripped input (marker
included) as the working title.  The spec's own example behaves as
stated. -/
theorem parse_compact_marker (q : String) (s e : Nat)
    (h : seSearch (pyStrip q.data) = some (s, e)) :
    (parse_query q).2.2.1 = some s ∧
    (parse_query q).2.2.2 = some e ∧
    (parse_query q).2.1 = yearSearch (seWorkingTitle q) ∧
    parse_query "Breaking Bad S01E05" =
      (some "Breaking Bad", none, some 1, some 5) := by
  have hne : (pyStrip q.data).isEmpty = false := by
    cases hps : pyStrip q.data with
    | nil =>
      rw [hps, seSearch_nil] at h
      exact absurd h (by simp)
    | cons c cs => rfl
  rw [parse_query_eq q hne]
  refine ⟨?_, ?_, rfl, by decide⟩
  · simp only [h]
  · simp only [h]

/-- Witness for C4's theorem at the spec's example input. -/
theorem parse_compact_marker_witness :
    (parse_query "Breaking Bad S01E05").2.2.1 = some 1 ∧
    (parse_query "Breaking Bad S01E05").2.2.2 = some 5 :=
  let h := parse_compact_marker "Breaking Bad S01E05" 1 5 (by decide)
  ⟨h.1, h.2.1⟩

/-- C4 counterexample: `parse_query "S0E0"` captures season 0 and
episode 0 — not positive integers — and returns the original text
`"S0E0"` as the title, which still contains the compact marker (the
`if not title` reset restores it), refuting both the positivity and the
marker-exclusion parts of the claim. -/
theorem parse_compact_marker_claim_false :
    parse_query "S0E0" = (some "S0E0", none, some 0, some 0) ∧
    (seSearch "S0E0".data).isSome = true := by
  constructor
  · decide
  · decide

/-- C5 (corrected): `parse_query` yields an empty title exactly when the
input is blank or the staged pipeline — season/episode removal with the
proviso that a removal emptying the text restores the original stripped
input, then year removal, then whitespace/hyphen cleanup — leaves
nothing; `parse("")` and `parse("   ")` yield an empty title. -/
theorem parse_empty_title_iff (q : String) :
    (((parse_query q).1 = none ∨ (parse_query q).1 = some "") ↔
      ((pyStrip q.data).isEmpty = true ∨ parsePipelineRestored q = [])) ∧
    parse_query "" = (none, none, none, none) ∧
    parse_query "   " = (none, none, none, none) := by
  refine ⟨?_, by decide, by decide⟩
  by_cases hb : (pyStrip q.data).isEmpty = true
  · rw [parse_query_blank q hb]
    simp [hb]
  · have hne : (pyStrip q.data).isEmpty = false := by
      cases hx : (pyStrip q.data).isEmpty
      · rfl
      · exact absurd hx hb
    rw [parse_query_eq q hne]
    simp only [hne, Bool.false_eq_true, false_or]
    constructor
    · intro hd
      rcases hd with hn | hs
      · exact absurd hn (by simp)
      · have : String.mk (parsePipelineRestored q) = "" := by
          injection hs
        have := congrArg String.data this
        simpa using this
    · intro hnil
      right
      rw [hnil]

/-- C5 counterexample: for the input `"S01E05"` the claim's pipeline
(season/episode removal, year removal, cleanup, with no restore step)
leaves empty text, yet `parse_query` returns the non-empty title
`"S01E05"` — refuting the claimed "exactly when". -/
theorem parse_empty_title_claim_false :
    specParsePipeline "S01E05" = [] ∧
    parse_query "S01E05" = (some "S01E05", none, some 1, some 5) := by
  constructor
  · decide
  · decide

/-! ## C7: cache round-trip -/

theorem getS_eq_none_iff {α : Type} (s : List (String × α)) (nm : String) :
    getS s nm = none ↔ nm ∉ s.map Prod.fst := by
  induction s with
  | nil => simp [getS]
  | cons kv rest ih =>
    obtain ⟨k, w⟩ := kv
    by_cases h : k = nm
    · subst h
      simp [getS]
    · simp only [getS, h, if_false, List.map_cons, List.mem_cons]
      rw [ih]
      constructor
      · intro hn hd
        rcases hd with hd | hd
        · exact h hd.symm
        · exact hn hd
      · intro hn hd
        exact hn (Or.inr hd)

theorem nodup_keys_setS {α : Type} (s : List (String × α)) (f : String) (v : α)
    (h : (s.map Prod.fst).Nodup) : ((setS s f v).map Prod.fst).Nodup := by
  induction s with
  | nil => simp [setS]
  | cons kv rest ih =>
    obtain ⟨k, w⟩ := kv
    simp only [List.map_cons, List.nodup_cons] at h
    by_cases hk : k = f
    · simp only [setS, hk, if_true, List.map_cons, List.nodup_cons]
      rw [← hk]
      exact ⟨h.1, h.2⟩
    · simp only [setS, hk, if_false, List.map_cons, List.nodup_cons]
      refine ⟨?_, ih h.2⟩
      intro hmem
      by_cases hkf : k ∈ rest.map Prod.fst
      · exact h.1 hkf
      · have hnone : getS rest k = none := (getS_eq_none_iff rest k).mpr hkf
        have : getS (setS rest f v) k = getS rest k :=
          getS_setS_of_ne rest f k v (fun hh => hk hh)
        have : getS (setS rest f v) k = none := by rw [this, hnone]
        exact ((getS_eq_none_iff _ k).mp this) hmem

theorem getS_setFields {α : Type} (fs : List (String × α)) :
    ∀ (d : List (String × α)) (nm : String),
      (fs.map Prod.fst).Nodup →
      getS (setFields d fs) nm =
        match getS fs nm with
        | some v => some v
        | none => getS d nm := by
  induction fs with
  | nil => intro d nm _; simp [setFields, getS]
  | cons kv fs2 ih =>
    intro d nm hnd
    obtain ⟨k, w⟩ := kv
    simp only [List.map_cons, List.nodup_cons] at hnd
    have hstep : setFields d ((k, w) :: fs2) = setFields (setS d k w) fs2 := rfl
    rw [hstep, ih (setS d k w) nm hnd.2]
    by_cases hnm : k = nm
    · subst hnm
      have h2 : getS fs2 k = none := (getS_eq_none_iff fs2 k).mpr hnd.1
      simp [getS, h2, getS_setS_self]
    · simp only [getS, hnm, if_false]
      cases hf : getS fs2 nm with
      | some v => rfl
      | none => simp [getS_setS_of_ne d k nm w (fun hh => hnm hh.symm)]

theorem findOne_upsert (k : String) (fields : CacheDoc)
    (hkey : getS fields "key" = none)
    (hnd : (fields.map Prod.fst).Nodup) :
    ∀ st : List CacheDoc,
      ∃ d, findOne (updateOneUpsert st k fields) k = some d ∧
        ∀ nm v, getS fields nm = some v → getS d nm = some v := by
  have hfieldsOf : ∀ d0 : CacheDoc, ∀ nm v, getS fields nm = some v →
      getS (setFields d0 fields) nm = some v := by
    intro d0 nm v hv
    rw [getS_setFields fields d0 nm hnd, hv]
  have hkeyOf : ∀ d0 : CacheDoc, getS (setFields d0 fields) "key" = getS d0 "key" := by
    intro d0
    rw [getS_setFields fields d0 "key" hnd, hkey]
  intro st
  induction st with
  | nil =>
    refine ⟨setFields [("key", .str k)] fields, ?_, hfieldsOf _⟩
    have hm : matchesKey (setFields [("key", .str k)] fields) k = true := by
      unfold matchesKey
      rw [hkeyOf]
      simp [getS]
    simp [updateOneUpsert, findOne, hm]
  | cons d0 rest ih =>
    by_cases hm : matchesKey d0 k
    · refine ⟨setFields d0 fields, ?_, hfieldsOf _⟩
      have hm2 : matchesKey (setFields d0 fields) k = true := by
        unfold matchesKey at hm ⊢
        rw [hkeyOf]
        exact hm
      simp [updateOneUpsert, findOne, hm, hm2]
    · obtain ⟨d, hfind, hprops⟩ := ih
      refine ⟨d, ?_, hprops⟩
      have hm3 : matchesKey d0 k = false := by
        cases hx : matchesKey d0 k
        · rfl
        · exact absurd hx hm
      simp only [updateOneUpsert, hm3, Bool.false_eq_true, if_false, findOne,
        List.find?]
      exact hfind

/-- C7 (corrected): the cache round-trip holds field-wise for blobs that
do not bind the reserved filter field `key` — `put` stamps fresh
`cached_at`/`ttl` values (overwriting any same-named fields of the blob)
and upserts the blob's remaining fields over whatever was stored before;
a `get` within the ttl window returns that stored document, a `get`
after the window behaves as absent, and in both cases the entry remains
in the collection (a stale read deletes nothing). -/
theorem cache_roundtrip_fieldwise (st : List CacheDoc) (k : String)
    (v : CacheDoc) (ttl t t2 : Int)
    (hkey : getS v "key" = none)
    (hnd : (v.map Prod.fst).Nodup) :
    ∃ d, findOne (cache_movie_data st k v ttl t) k = some d ∧
      (∀ nm val, nm ≠ "cached_at" → nm ≠ "ttl" →
        getS v nm = some val → getS d nm = some val) ∧
      getS d "cached_at" = some (.num t) ∧
      getS d "ttl" = some (.num ttl) ∧
      (t2 - t < ttl →
        get_cached_movie_data (cache_movie_data st k v ttl t) k t2 = some d) ∧
      (¬ t2 - t < ttl →
        get_cached_movie_data (cache_movie_data st k v ttl t) k t2 = none) := by
  have hca_ttl : ("cached_at" : String) ≠ "ttl" := by decide
  have hkey_ca : ("key" : String) ≠ "cached_at" := by decide
  have hkey_ttl : ("key" : String) ≠ "ttl" := by decide
  set data2 := setS (setS v "cached_at" (.num t)) "ttl" (.num ttl) with hdata2
  have h_ca : getS data2 "cached_at" = some (.num t) := by
    rw [hdata2, getS_setS_of_ne _ "ttl" "cached_at" _ hca_ttl, getS_setS_self]
  have h_ttl : getS data2 "ttl" = some (.num ttl) := getS_setS_self _ _ _
  have h_key : getS data2 "key" = none := by
    rw [hdata2, getS_setS_of_ne _ "ttl" "key" _ hkey_ttl,
      getS_setS_of_ne _ "cached_at" "key" _ hkey_ca, hkey]
  have h_nd : (data2.map Prod.fst).Nodup := by
    rw [hdata2]
    exact nodup_keys_setS _ _ _ (nodup_keys_setS _ _ _ hnd)
  have h_other : ∀ nm val, nm ≠ "cached_at" → nm ≠ "ttl" →
      getS v nm = some val → getS data2 nm = some val := by
    intro nm val h1 h2 hv
    rw [hdata2, getS_setS_of_ne _ "ttl" nm _ h2,
      getS_setS_of_ne _ "cached_at" nm _ h1, hv]
  obtain ⟨d, hfind, hprops⟩ := findOne_upsert k data2 h_key h_nd st
  have hd_ca : getS d "cached_at" = some (.num t) := hprops _ _ h_ca
  have hd_ttl : getS d "ttl" = some (.num ttl) := hprops _ _ h_ttl
  have hget : ∀ t3 : Int,
      get_cached_movie_data (cache_movie_data st k v ttl t) k t3 =
        if t3 - t < ttl then some d else none := by
    intro t3
    unfold get_cached_movie_data
    have hcm : cache_movie_data st k v ttl t = updateOneUpsert st k data2 := rfl
    rw [hcm, hfind]
    simp only [getNumD, hd_ca, hd_ttl]
  refine ⟨d, ?_, ?_, hd_ca, hd_ttl, ?_, ?_⟩
  · exact hfind
  · intro nm val h1 h2 hv
    exact hprops _ _ (h_other nm val h1 h2 hv)
  · intro hlt
    rw [hget t2, if_pos hlt]
  · intro hge
    rw [hget t2, if_neg hge]

/-- Witness for C7's theorem: a concrete round-trip, fresh and stale. -/
theorem cache_roundtrip_fieldwise_witness :
    ∃ d, findOne (cache_movie_data [] "k1" [("data", BVal.str "blob")] 3600 0)
        "k1" = some d ∧
      getS d "data" = some (BVal.str "blob") ∧
      get_cached_movie_data
        (cache_movie_data [] "k1" [("data", BVal.str "blob")] 3600 0)
        "k1" 10 = some d ∧
      get_cached_movie_data
        (cache_movie_data [] "k1" [("data", BVal.str "blob")] 3600 0)
        "k1" 4000 = none := by
  obtain ⟨d, hfind, hblob, hca, httl, hin, hout⟩ :=
    cache_roundtrip_fieldwise [] "k1" [("data", BVal.str "blob")] 3600 0 10
      rfl (by simp)
  refine ⟨d, hfind, ?_, hin (by norm_num), ?_⟩
  · exact hblob "data" (BVal.str "blob") (by decide) (by decide) rfl
  · obtain ⟨d2, hfind2, hblob2, hca2, httl2, hin2, hout2⟩ :=
      cache_roundtrip_fieldwise [] "k1" [("data", BVal.str "blob")] 3600 0 4000
      rfl (by simp)
    exact hout2 (by norm_num)

/-- C7 counterexample: `put` mutates the blob before storing it — a blob
carrying its own `ttl` field has that field overwritten with the cache
ttl, so the `get` inside the window does not return the stored blob `v`
(its `ttl` binding differs): refuting the round-trip as literally
stated. -/
theorem cache_put_overwrites_blob_bookkeeping :
    (get_cached_movie_data
        (cache_movie_data [] "a" [("ttl", BVal.num 7)] 3600 0) "a" 0).map
      (fun d => getNumD d "ttl" 0) = some 3600 := by
  rfl

end Tmdb
